import Mathlib

/-!
Verification of the converterdox file-conversion server (src/index.js).

The source is a single Express handler: multer stores the uploaded file under
uploads/ with the name Date.now() + '-' + originalname (lines 21-28); the
handler dispatches on targetFormat to one of three converters (lines 106-114),
sets response headers and streams the output file (lines 116-122), registers
cleanup of both temp files on the read stream's end event (lines 125-132), and
on any thrown error removes the input file and answers 500 (lines 133-147).

The embedding below models the JS control flow directly: converters are
records of the external command they issue, the filesystem is a list of
existing paths, and the handler is a function of the request, the Date.now()
value used for the output name, the converter outcome and the stream outcome.
-/

/-! Decimal rendering of a Nat, mirroring the JS number-to-string coercion
used by Date.now() + '-' + name (line 26) and the template literal on
line 79. Fuel-based so that it reduces by evaluation. -/

def natDigitsAux : Nat → Nat → List Char
  | 0, _ => []
  | fuel + 1, n =>
    if n < 10 then [Nat.digitChar n]
    else natDigitsAux fuel (n / 10) ++ [Nat.digitChar (n % 10)]

def natToString (n : Nat) : String := ⟨natDigitsAux (n + 1) n⟩

def digitVal (c : Char) : Nat := c.toNat - 48

def digitsVal (l : List Char) : Nat := l.foldl (fun acc c => 10 * acc + digitVal c) 0

/-! Format registry (src/index.js lines 86-103). -/

def supportedAudioFormats : List String := ["mp3", "wav", "ogg", "m4a"]

def supportedImageFormats : List String := ["jpg", "jpeg", "png", "webp"]

def supportedDocFormats : List String := ["pdf", "docx", "txt"]

def supportedFormats : List String :=
  supportedAudioFormats ++ supportedDocFormats ++ supportedImageFormats

/-- The contentTypes object (lines 91-103); property lookup on a JS object
yields undefined for an absent key, modelled as none. -/
def contentTypes (f : String) : Option String :=
  if f = "mp3" then some "audio/mpeg"
  else if f = "wav" then some "audio/wav"
  else if f = "ogg" then some "audio/ogg"
  else if f = "m4a" then some "audio/mp4"
  else if f = "pdf" then some "application/pdf"
  else if f = "docx" then
    some "application/vnd.openxmlformats-officedocument.wordprocessingml.document"
  else if f = "txt" then some "text/plain"
  else if f = "jpg" then some "image/jpeg"
  else if f = "jpeg" then some "image/jpeg"
  else if f = "png" then some "image/png"
  else if f = "webp" then some "image/webp"
  else none

/-! Upload receiver (multer diskStorage, lines 21-28). -/

/-- The stored temp file name, line 26: Date.now() + '-' + file.originalname. -/
def multerFilename (now : Nat) (originalname : String) : String :=
  natToString now ++ "-" ++ originalname

/-- An incoming upload, as far as the storage layer can see it: the
client-supplied original filename and the file bytes. Two concurrent requests
are distinct when any of these differ. -/
structure UploadRequest where
  originalname : String
  content : List Nat
deriving DecidableEq

/-- The name multer stores a given upload under when Date.now() reads now. -/
def storedTempName (now : Nat) (r : UploadRequest) : String :=
  multerFilename now r.originalname

/-! The three converters (lines 36-66), modelled as the external command each
one issues. -/

/-- The fluent-ffmpeg invocation built by convertAudio (lines 36-46). -/
structure FfmpegCommand where
  input : String
  format : String
  audioCodec : String
  audioBitrate : String
  output : String
deriving DecidableEq

/-- convertAudio (lines 36-46): ffmpeg(inputPath).toFormat(format)
.audioCodec of libmp3lame and .audioBitrate of 192k, saved to outputPath. -/
def convertAudio (inputPath outputPath format : String) : FfmpegCommand :=
  { input := inputPath, format := format, audioCodec := "libmp3lame",
    audioBitrate := "192k", output := outputPath }

/-- The libreoffice-convert invocation built by convertDocument (lines 49-54):
read the input, convert to "." ++ targetFormat, write to outputPath. -/
structure LibreOp where
  input : String
  outputExtension : String
  output : String
deriving DecidableEq

def convertDocument (inputPath outputPath targetFormat : String) : LibreOp :=
  { input := inputPath, outputExtension := "." ++ targetFormat, output := outputPath }

inductive SharpEncoder
  | jpeg
  | png
  | webp
deriving DecidableEq

/-- The sharp invocation built by convertImage (lines 57-66). -/
structure SharpOp where
  input : String
  encoder : SharpEncoder
  quality : Nat
  output : String
deriving DecidableEq

/-- convertImage (lines 57-66): an if-chain over jpg or jpeg, png, webp, each
with quality 90; a format matching none of the guards runs no encoder and the
function resolves without touching outputPath, modelled as none. -/
def convertImage (inputPath outputPath format : String) : Option SharpOp :=
  if format = "jpg" ∨ format = "jpeg" then
    some { input := inputPath, encoder := SharpEncoder.jpeg, quality := 90,
           output := outputPath }
  else if format = "png" then
    some { input := inputPath, encoder := SharpEncoder.png, quality := 90,
           output := outputPath }
  else if format = "webp" then
    some { input := inputPath, encoder := SharpEncoder.webp, quality := 90,
           output := outputPath }
  else none

/-! The filesystem and the cleanup blocks. -/

/-- The filesystem is the list of existing paths; fs.unlink removes the path
or rejects (none) when it does not exist. -/
def unlink (p : String) (fs : List String) : Option (List String) :=
  if fs.contains p then some (fs.erase p) else none

/-- The stream end handler (lines 125-132): one try block awaiting
unlink(inputPath) then unlink(outputPath); the first rejection jumps to the
catch, which only logs, so a failed input removal skips the output removal
and no error escapes. Returns the resulting filesystem. -/
def streamEndCleanup (inputPath outputPath : String) (fs : List String) : List String :=
  match unlink inputPath fs with
  | none => fs
  | some fs1 =>
    match unlink outputPath fs1 with
    | none => fs1
    | some fs2 => fs2

/-- The catch block cleanup (lines 135-141): try unlink(req.file.path),
logging a rejection. -/
def catchCleanup (inputPath : String) (fs : List String) : List String :=
  match unlink inputPath fs with
  | none => fs
  | some fs1 => fs1

/-! The request handler (lines 69-148). -/

/-- req.file as multer provides it: stored temp path and original name. -/
structure UploadedFile where
  path : String
  originalname : String
deriving DecidableEq

/-- The handler's inputs: req.file (none when the multipart body had no file
field) and req.body.targetFormat (none when the field is absent, which JS
destructuring leaves undefined). -/
structure ConvertRequest where
  file : Option UploadedFile
  targetFormat : Option String
deriving DecidableEq

/-- JS string coercion of a possibly-undefined value, as done by the template
literals on lines 79 and 113: undefined renders as the text undefined. -/
def jsStringOf (v : Option String) : String :=
  match v with
  | some s => s
  | none => "undefined"

/-- Array.prototype.includes applied to a possibly-undefined targetFormat
(lines 106-110): undefined is a member of none of the format lists. -/
def optIncludes (v : Option String) (l : List String) : Bool :=
  match v with
  | some s => l.contains s
  | none => false

inductive ConverterCall
  | audio (cmd : FfmpegCommand)
  | document (op : LibreOp)
  | image (op : Option SharpOp)
deriving DecidableEq

/-- The dispatch if-chain (lines 106-114): audio, then document, then image;
none models the final else branch which throws the unsupported-format error. -/
def dispatch (tf : Option String) (inputPath outputPath : String) : Option ConverterCall :=
  if optIncludes tf supportedAudioFormats then
    some (ConverterCall.audio (convertAudio inputPath outputPath (jsStringOf tf)))
  else if optIncludes tf supportedDocFormats then
    some (ConverterCall.document (convertDocument inputPath outputPath (jsStringOf tf)))
  else if optIncludes tf supportedImageFormats then
    some (ConverterCall.image (convertImage inputPath outputPath (jsStringOf tf)))
  else none

/-- True exactly when the dispatch routed the request to the image converter. -/
def isImageCall (c : Option ConverterCall) : Bool :=
  match c with
  | some (ConverterCall.image _) => true
  | _ => false

/-- Outcome of the awaited converter call: resolve, or reject with the tool's
error message. -/
inductive ConverterOutcome
  | success
  | failure (msg : String)
deriving DecidableEq

/-- Outcome of streaming the output file to the client: the read stream emits
end (full delivery), or errors, or the client disconnects mid-stream (the
destination fails, the pipe unpipes, and end never fires). -/
inductive StreamOutcome
  | ended
  | errored
  | clientDisconnected
deriving DecidableEq

inductive ResponseBody
  | errorJson (error : String) (details : Option String)
  | fileStream (path : String)
deriving DecidableEq

structure HttpResponse where
  status : Nat
  contentType : Option String
  contentDisposition : Option String
  body : ResponseBody
deriving DecidableEq

/-- The 500 response of the catch block (lines 143-146): error.message plus
error.toString(), the latter rendering as Error: followed by the message. -/
def errorResponse (msg : String) : HttpResponse :=
  { status := 500, contentType := none, contentDisposition := none,
    body := ResponseBody.errorJson msg (some ("Error: " ++ msg)) }

def uploadsDir : String := "uploads"

/-- What one request leaves behind: the response sent, the converter commands
issued, the temp files created for the request, and the filesystem (restricted
to this request's files) after the handler's cleanup has or has not run. -/
structure HandlerResult where
  response : HttpResponse
  converterCalls : List ConverterCall
  tempFilesCreated : List String
  finalFs : List String
deriving DecidableEq

/-- The POST /convert handler (lines 69-148). now is the Date.now() value read
on line 79 for the output name. The input temp file exists exactly when multer
stored one; the output file is created when the dispatched converter resolves.
Line 83 also computes sourceFormat from the original name, but nothing after
it uses that value, so it does not appear in the result. Cleanup of both files
is registered only on the read stream's end event (line 125); the catch block
(lines 133-147) removes only the input file. -/
def handleConvert (req : ConvertRequest) (now : Nat)
    (conv : ConverterOutcome) (stream : StreamOutcome) : HandlerResult :=
  match req.file with
  | none =>
      { response := { status := 400, contentType := none, contentDisposition := none,
                      body := ResponseBody.errorJson "No file uploaded" none },
        converterCalls := [], tempFilesCreated := [], finalFs := [] }
  | some file =>
      let inputPath := file.path
      let outputFileName := natToString now ++ "-converted." ++ jsStringOf req.targetFormat
      let outputPath := uploadsDir ++ "/" ++ outputFileName
      match dispatch req.targetFormat inputPath outputPath with
      | none =>
          { response := errorResponse
              ("Conversion to " ++ jsStringOf req.targetFormat ++ " is not supported"),
            converterCalls := [],
            tempFilesCreated := [inputPath],
            finalFs := catchCleanup inputPath [inputPath] }
      | some call =>
          match conv with
          | ConverterOutcome.failure msg =>
              { response := errorResponse msg,
                converterCalls := [call],
                tempFilesCreated := [inputPath],
                finalFs := catchCleanup inputPath [inputPath] }
          | ConverterOutcome.success =>
              { response := { status := 200,
                              contentType := contentTypes (jsStringOf req.targetFormat),
                              contentDisposition :=
                                some ("attachment; filename=" ++ outputFileName),
                              body := ResponseBody.fileStream outputPath },
                converterCalls := [call],
                tempFilesCreated := [inputPath, outputPath],
                finalFs :=
                  match stream with
                  | StreamOutcome.ended =>
                      streamEndCleanup inputPath outputPath [inputPath, outputPath]
                  | _ => [inputPath, outputPath] }

/-! Helper lemmas about the decimal rendering. -/

theorem digitsVal_append_singleton (l : List Char) (c : Char) :
    digitsVal (l ++ [c]) = 10 * digitsVal l + digitVal c := by
  simp [digitsVal, List.foldl_append]

theorem digitVal_digitChar : ∀ n < 10, digitVal (Nat.digitChar n) = n := by decide

theorem digitChar_ne_dash : ∀ n < 10, Nat.digitChar n ≠ '-' := by decide

theorem natDigitsAux_val : ∀ fuel n, n < fuel → digitsVal (natDigitsAux fuel n) = n := by
  intro fuel
  induction fuel with
  | zero => intro n h; omega
  | succ f ih =>
    intro n h
    by_cases h10 : n < 10
    · simp [natDigitsAux, h10, digitsVal, digitVal_digitChar n h10]
    · have hdiv : n / 10 < f := by
        have h1 : n / 10 < n := Nat.div_lt_self (by omega) (by omega)
        omega
      simp [natDigitsAux, h10, digitsVal_append_singleton, ih _ hdiv,
        digitVal_digitChar (n % 10) (Nat.mod_lt n (by omega))]
      omega

theorem natDigitsAux_ne_dash : ∀ fuel n, n < fuel → '-' ∉ natDigitsAux fuel n := by
  intro fuel
  induction fuel with
  | zero => intro n h; omega
  | succ f ih =>
    intro n h
    by_cases h10 : n < 10
    · simp [natDigitsAux, h10]
      exact fun hc => digitChar_ne_dash n h10 hc.symm
    · have hdiv : n / 10 < f := by
        have h1 : n / 10 < n := Nat.div_lt_self (by omega) (by omega)
        omega
      simp [natDigitsAux, h10]
      constructor
      · exact fun hc => ih _ hdiv hc
      · exact fun hc => digitChar_ne_dash (n % 10) (Nat.mod_lt n (by omega)) hc.symm

theorem natDigitsAux_inj {m n : Nat} (h : natDigitsAux (m + 1) m = natDigitsAux (n + 1) n) :
    m = n := by
  have h1 := natDigitsAux_val (m + 1) m (by omega)
  have h2 := natDigitsAux_val (n + 1) n (by omega)
  rw [h] at h1
  omega

/-- If two lists each free of the dash character agree once a dash and a tail
are appended, the dash positions coincide, so the lists agree. -/
theorem append_dash_inj : ∀ (a b xs ys : List Char), '-' ∉ a → '-' ∉ b →
    a ++ '-' :: xs = b ++ '-' :: ys → a = b := by
  intro a
  induction a with
  | nil =>
    intro b xs ys _ hb heq
    cases b with
    | nil => rfl
    | cons c cs =>
      simp only [List.nil_append, List.cons_append, List.cons.injEq] at heq
      exfalso
      apply hb
      rw [← heq.1]
      exact List.mem_cons_self '-' cs
  | cons c cs ih =>
    intro b xs ys ha hb heq
    cases b with
    | nil =>
      simp only [List.nil_append, List.cons_append, List.cons.injEq] at heq
      exfalso
      apply ha
      rw [heq.1]
      exact List.mem_cons_self '-' cs
    | cons d ds =>
      simp only [List.cons_append, List.cons.injEq] at heq
      obtain ⟨hcd, htail⟩ := heq
      have htl := ih ds xs ys (fun hm => ha (List.mem_cons_of_mem _ hm))
        (fun hm => hb (List.mem_cons_of_mem _ hm)) htail
      rw [hcd, htl]

/-! Shared lemmas about the dispatch and the cleanup blocks. -/

theorem dispatch_none_of_unsupported (f : String) (h : f ∉ supportedFormats) :
    ∀ i o, dispatch (some f) i o = none := by
  intro i o
  simp only [supportedFormats, List.mem_append, not_or] at h
  simp [dispatch, optIncludes, h.1.1, h.1.2, h.2]

theorem catchCleanup_self (p : String) : catchCleanup p [p] = [] := by
  simp [catchCleanup, unlink]

/-- Claim C2: for every target format outside the supported set, the handler
invokes no converter, creates no output file, removes the uploaded input temp
file, and responds 500 with error field exactly the unsupported-format
message. -/
theorem handleConvert_unsupported_format (file : UploadedFile) (now : Nat)
    (conv : ConverterOutcome) (stream : StreamOutcome) (f : String)
    (h : f ∉ supportedFormats) :
    (handleConvert { file := some file, targetFormat := some f } now conv stream).converterCalls
        = [] ∧
    (handleConvert { file := some file, targetFormat := some f } now conv stream).tempFilesCreated
        = [file.path] ∧
    (handleConvert { file := some file, targetFormat := some f } now conv stream).finalFs = [] ∧
    (handleConvert { file := some file, targetFormat := some f } now conv stream).response.status
        = 500 ∧
    (handleConvert { file := some file, targetFormat := some f } now conv stream).response.body
        = ResponseBody.errorJson ("Conversion to " ++ f ++ " is not supported")
            (some ("Error: " ++ ("Conversion to " ++ f ++ " is not supported"))) := by
  refine ⟨?_, ?_, ?_, ?_, ?_⟩ <;>
    simp [handleConvert, dispatch_none_of_unsupported f h, jsStringOf, errorResponse,
      catchCleanup, unlink]

/-- Witness for claim C2 at the target format xyz. -/
theorem handleConvert_unsupported_format_witness :
    "xyz" ∉ supportedFormats ∧
    ((handleConvert
        (ConvertRequest.mk (some (UploadedFile.mk "uploads/1000-doc.docx" "doc.docx"))
          (some "xyz")) 1000 ConverterOutcome.success StreamOutcome.ended).converterCalls = [] ∧
      (handleConvert
        (ConvertRequest.mk (some (UploadedFile.mk "uploads/1000-doc.docx" "doc.docx"))
          (some "xyz")) 1000 ConverterOutcome.success StreamOutcome.ended).tempFilesCreated
        = ["uploads/1000-doc.docx"] ∧
      (handleConvert
        (ConvertRequest.mk (some (UploadedFile.mk "uploads/1000-doc.docx" "doc.docx"))
          (some "xyz")) 1000 ConverterOutcome.success StreamOutcome.ended).finalFs = [] ∧
      (handleConvert
        (ConvertRequest.mk (some (UploadedFile.mk "uploads/1000-doc.docx" "doc.docx"))
          (some "xyz")) 1000 ConverterOutcome.success StreamOutcome.ended).response.status
        = 500 ∧
      (handleConvert
        (ConvertRequest.mk (some (UploadedFile.mk "uploads/1000-doc.docx" "doc.docx"))
          (some "xyz")) 1000 ConverterOutcome.success StreamOutcome.ended).response.body
        = ResponseBody.errorJson ("Conversion to " ++ "xyz" ++ " is not supported")
            (some ("Error: " ++ ("Conversion to " ++ "xyz" ++ " is not supported")))) :=
  ⟨by decide,
    handleConvert_unsupported_format (UploadedFile.mk "uploads/1000-doc.docx" "doc.docx") 1000
      ConverterOutcome.success StreamOutcome.ended "xyz" (by decide)⟩

/-- Claim C3: a successful conversion targeting a supported format answers
with Content-Type equal to the registry's single MIME type for that format
and a Content-Disposition marking an attachment named
timestamp-converted.format. -/
theorem handleConvert_success_headers (file : UploadedFile) (now : Nat)
    (stream : StreamOutcome) (f : String) (h : f ∈ supportedFormats) :
    ∃ m : String, contentTypes f = some m ∧
      (handleConvert { file := some file, targetFormat := some f } now
          ConverterOutcome.success stream).response.contentType = some m ∧
      (handleConvert { file := some file, targetFormat := some f } now
          ConverterOutcome.success stream).response.contentDisposition
        = some ("attachment; filename=" ++ (natToString now ++ "-converted." ++ f)) ∧
      (handleConvert { file := some file, targetFormat := some f } now
          ConverterOutcome.success stream).response.status = 200 := by
  simp only [supportedFormats, supportedAudioFormats, supportedDocFormats,
    supportedImageFormats, List.append_eq, List.mem_append, List.mem_cons,
    List.not_mem_nil, or_false] at h
  rcases h with ((rfl | rfl | rfl | rfl) | rfl | rfl | rfl) | rfl | rfl | rfl | rfl <;>
    exact ⟨_, rfl, rfl, rfl, rfl⟩

/-- Witness for claim C3 at the target format png. -/
theorem handleConvert_success_headers_witness :
    "png" ∈ supportedFormats ∧
    (∃ m : String, contentTypes "png" = some m ∧
      (handleConvert
        (ConvertRequest.mk (some (UploadedFile.mk "uploads/1000-x.jpg" "x.jpg"))
          (some "png")) 1000 ConverterOutcome.success StreamOutcome.ended).response.contentType
        = some m ∧
      (handleConvert
        (ConvertRequest.mk (some (UploadedFile.mk "uploads/1000-x.jpg" "x.jpg"))
          (some "png")) 1000 ConverterOutcome.success
          StreamOutcome.ended).response.contentDisposition
        = some ("attachment; filename=" ++ (natToString 1000 ++ "-converted." ++ "png")) ∧
      (handleConvert
        (ConvertRequest.mk (some (UploadedFile.mk "uploads/1000-x.jpg" "x.jpg"))
          (some "png")) 1000 ConverterOutcome.success StreamOutcome.ended).response.status
        = 200) :=
  ⟨by decide,
    handleConvert_success_headers (UploadedFile.mk "uploads/1000-x.jpg" "x.jpg")
      1000 StreamOutcome.ended "png" (by decide)⟩

/-- Claim C5: for every audio target format, the ffmpeg invocation built by
convertAudio carries the fixed codec libmp3lame and the fixed bitrate 192k
regardless of the target container, and the dispatch routes the format to
exactly that invocation. -/
theorem convertAudio_fixed_settings (i o f : String) (h : f ∈ supportedAudioFormats) :
    (convertAudio i o f).audioCodec = "libmp3lame" ∧
    (convertAudio i o f).audioBitrate = "192k" ∧
    dispatch (some f) i o = some (ConverterCall.audio (convertAudio i o f)) := by
  refine ⟨rfl, rfl, ?_⟩
  simp [dispatch, optIncludes, jsStringOf, h]

/-- Witness for claim C5 at the target format ogg. -/
theorem convertAudio_fixed_settings_witness :
    "ogg" ∈ supportedAudioFormats ∧
    ((convertAudio "uploads/1000-a.mp3" "uploads/1000-converted.ogg" "ogg").audioCodec
        = "libmp3lame" ∧
      (convertAudio "uploads/1000-a.mp3" "uploads/1000-converted.ogg" "ogg").audioBitrate
        = "192k" ∧
      dispatch (some "ogg") "uploads/1000-a.mp3" "uploads/1000-converted.ogg"
        = some (ConverterCall.audio
            (convertAudio "uploads/1000-a.mp3" "uploads/1000-converted.ogg" "ogg"))) :=
  ⟨by decide,
    convertAudio_fixed_settings "uploads/1000-a.mp3" "uploads/1000-converted.ogg" "ogg"
      (by decide)⟩

/-- Claim C6: every image target format is re-encoded with the fixed quality
setting 90, the targets jpg and jpeg take the identical converter path, and
both are mapped to the MIME type image/jpeg. -/
theorem convertImage_fixed_quality (i o f : String) (h : f ∈ supportedImageFormats) :
    (∃ op : SharpOp, convertImage i o f = some op ∧ op.quality = 90) ∧
    convertImage i o "jpg" = convertImage i o "jpeg" ∧
    contentTypes "jpg" = some "image/jpeg" ∧
    contentTypes "jpeg" = some "image/jpeg" := by
  refine ⟨?_, by simp [convertImage], by decide, by decide⟩
  simp only [supportedImageFormats, List.mem_cons, List.not_mem_nil, or_false] at h
  rcases h with rfl | rfl | rfl | rfl
  · exact ⟨_, rfl, rfl⟩
  · exact ⟨_, rfl, rfl⟩
  · exact ⟨_, rfl, rfl⟩
  · exact ⟨_, rfl, rfl⟩

/-- Witness for claim C6 at the target format webp. -/
theorem convertImage_fixed_quality_witness :
    "webp" ∈ supportedImageFormats ∧
    ((∃ op : SharpOp,
        convertImage "uploads/1000-x.png" "uploads/1000-converted.webp" "webp" = some op ∧
          op.quality = 90) ∧
      convertImage "uploads/1000-x.png" "uploads/1000-converted.webp" "jpg"
        = convertImage "uploads/1000-x.png" "uploads/1000-converted.webp" "jpeg" ∧
      contentTypes "jpg" = some "image/jpeg" ∧
      contentTypes "jpeg" = some "image/jpeg") :=
  ⟨by decide,
    convertImage_fixed_quality "uploads/1000-x.png" "uploads/1000-converted.webp" "webp"
      (by decide)⟩

/-- Claim C8: a request with no file field answers 400 with the JSON body
holding exactly the error text No file uploaded and nothing else; no converter
runs, no temp file is ever created, and there is nothing to clean up. -/
theorem handleConvert_no_file (tf : Option String) (now : Nat)
    (conv : ConverterOutcome) (stream : StreamOutcome) :
    handleConvert (ConvertRequest.mk none tf) now conv stream =
      HandlerResult.mk
        (HttpResponse.mk 400 none none (ResponseBody.errorJson "No file uploaded" none))
        [] [] [] := rfl

/-- Claim C9: a request with a file but no targetFormat field is not answered
400; the dispatch falls through to the unsupported-format throw, the handler
answers 500 with the message naming the text undefined, no converter runs,
and the input temp file is removed. -/
theorem handleConvert_undefined_target (file : UploadedFile) (now : Nat)
    (conv : ConverterOutcome) (stream : StreamOutcome) :
    (handleConvert (ConvertRequest.mk (some file) none) now conv stream).response.status = 500 ∧
    (handleConvert (ConvertRequest.mk (some file) none) now conv stream).response.body
      = ResponseBody.errorJson "Conversion to undefined is not supported"
          (some "Error: Conversion to undefined is not supported") ∧
    (handleConvert (ConvertRequest.mk (some file) none) now conv stream).converterCalls = [] ∧
    (handleConvert (ConvertRequest.mk (some file) none) now conv stream).tempFilesCreated
      = [file.path] ∧
    (handleConvert (ConvertRequest.mk (some file) none) now conv stream).finalFs = [] := by
  refine ⟨?_, ?_, ?_, ?_, ?_⟩ <;>
    simp [handleConvert, dispatch, optIncludes, jsStringOf, errorResponse, catchCleanup, unlink]

/-- Claim C10: convertImage called with a format outside jpg, jpeg, png, webp
runs no encoder and creates no output (it resolves as a silent no-op), and the
dispatch never routes such a format to the image converter. -/
theorem convertImage_noop_unrouted (i o f : String) (h : f ∉ supportedImageFormats) :
    convertImage i o f = none ∧ isImageCall (dispatch (some f) i o) = false := by
  have h4 : ¬f = "jpg" ∧ ¬f = "jpeg" ∧ ¬f = "png" ∧ ¬f = "webp" := by
    simp only [supportedImageFormats, List.mem_cons, List.not_mem_nil, or_false, not_or] at h
    exact h
  constructor
  · simp [convertImage, h4.1, h4.2.1, h4.2.2.1, h4.2.2.2]
  · unfold dispatch
    by_cases ha : optIncludes (some f) supportedAudioFormats
    · simp [ha, isImageCall]
    · by_cases hd : optIncludes (some f) supportedDocFormats
      · simp [ha, hd, isImageCall]
      · have hi : optIncludes (some f) supportedImageFormats = false := by
          simp only [optIncludes]
          simpa using h
        simp [ha, hd, hi, isImageCall]

/-- Witness for claim C10 at the target format gif. -/
theorem convertImage_noop_unrouted_witness :
    "gif" ∉ supportedImageFormats ∧
    (convertImage "uploads/1000-x.png" "uploads/1000-converted.gif" "gif" = none ∧
      isImageCall (dispatch (some "gif") "uploads/1000-x.png" "uploads/1000-converted.gif")
        = false) :=
  ⟨by decide,
    convertImage_noop_unrouted "uploads/1000-x.png" "uploads/1000-converted.gif" "gif"
      (by decide)⟩

/-- Claim C1 evaluated at a concrete request: a successful wav conversion whose
stream ends naturally removes both temp files, but when the client disconnects
mid-stream the end event never fires, the registered cleanup never runs, and
both the input and the output temp file are left on disk, contradicting the
claim that every temp file is removed before the request scope ends regardless
of outcome. -/
theorem handleConvert_clientDisconnect_skips_cleanup :
    (handleConvert
      (ConvertRequest.mk (some (UploadedFile.mk "uploads/1000-song.mp3" "song.mp3"))
        (some "wav")) 1001 ConverterOutcome.success StreamOutcome.ended).finalFs = [] ∧
    (handleConvert
      (ConvertRequest.mk (some (UploadedFile.mk "uploads/1000-song.mp3" "song.mp3"))
        (some "wav")) 1001 ConverterOutcome.success
        StreamOutcome.clientDisconnected).tempFilesCreated
      = ["uploads/1000-song.mp3", "uploads/1001-converted.wav"] ∧
    (handleConvert
      (ConvertRequest.mk (some (UploadedFile.mk "uploads/1000-song.mp3" "song.mp3"))
        (some "wav")) 1001 ConverterOutcome.success
        StreamOutcome.clientDisconnected).finalFs
      = ["uploads/1000-song.mp3", "uploads/1001-converted.wav"] := by decide

/-- Claim C4 counterexample: two distinct concurrent uploads (same original
filename, different bytes) stored while Date.now() reads the same millisecond
value receive the identical stored temp name, so the claimed guaranteed
uniqueness fails. -/
theorem storedTempName_collision :
    UploadRequest.mk "a.txt" [0] ≠ UploadRequest.mk "a.txt" [1] ∧
    storedTempName 1000 (UploadRequest.mk "a.txt" [0])
      = storedTempName 1000 (UploadRequest.mk "a.txt" [1]) := by decide

/-- Claim C4 as amended: stored temp names are unique only across requests
whose Date.now() millisecond values differ; whenever the two timestamps are
distinct the stored names are distinct, whatever the original filenames. -/
theorem storedTempName_distinct_of_distinct_now (t1 t2 : Nat) (r1 r2 : UploadRequest)
    (h : t1 ≠ t2) : storedTempName t1 r1 ≠ storedTempName t2 r2 := by
  intro heq
  apply h
  have hdata : natDigitsAux (t1 + 1) t1 ++ '-' :: r1.originalname.data
      = natDigitsAux (t2 + 1) t2 ++ '-' :: r2.originalname.data := by
    have hd := congrArg String.data heq
    simpa [storedTempName, multerFilename, natToString, String.data_append,
      List.append_assoc] using hd
  exact natDigitsAux_inj (append_dash_inj _ _ _ _
    (natDigitsAux_ne_dash (t1 + 1) t1 (by omega))
    (natDigitsAux_ne_dash (t2 + 1) t2 (by omega)) hdata)

/-- Witness for the amended claim C4 at the timestamps 1000 and 1001. -/
theorem storedTempName_distinct_witness :
    (1000 : Nat) ≠ 1001 ∧
    storedTempName 1000 (UploadRequest.mk "a.txt" [0])
      ≠ storedTempName 1001 (UploadRequest.mk "a.txt" [0]) :=
  ⟨by decide,
    storedTempName_distinct_of_distinct_now 1000 1001 (UploadRequest.mk "a.txt" [0])
      (UploadRequest.mk "a.txt" [0]) (by decide)⟩

/-- Claim C7 counterexample: when the input file is already gone but the
output file exists, the first unlink of the stream end cleanup rejects and the
shared catch is entered, so the output file is never removed even though it
was given to the cleanup and could have been removed: one removal failure does
prevent the remaining removal. -/
theorem streamEndCleanup_failure_skips_rest :
    unlink "uploads/1000-song.mp3" ["uploads/1001-converted.wav"] = none ∧
    streamEndCleanup "uploads/1000-song.mp3" "uploads/1001-converted.wav"
        ["uploads/1001-converted.wav"] = ["uploads/1001-converted.wav"] ∧
    "uploads/1001-converted.wav" ∈ streamEndCleanup "uploads/1000-song.mp3"
        "uploads/1001-converted.wav" ["uploads/1001-converted.wav"] := by decide

/-- Claim C7 as amended: the cleanup block catches and logs removal failures
(it is a total function of the filesystem, never raising to the client); when
both removals succeed in order both files are gone, but a failure removing the
input aborts the block and the output is left untouched. -/
theorem streamEndCleanup_logs_but_aborts (inp out : String) (fs : List String)
    (hnd : fs.Nodup) (hne : inp ≠ out) :
    (inp ∈ fs → out ∈ fs →
      inp ∉ streamEndCleanup inp out fs ∧ out ∉ streamEndCleanup inp out fs) ∧
    (inp ∉ fs → streamEndCleanup inp out fs = fs) := by
  constructor
  · intro hin hout
    have hout2 : out ∈ fs.erase inp := (List.mem_erase_of_ne (Ne.symm hne)).mpr hout
    have hres : streamEndCleanup inp out fs = (fs.erase inp).erase out := by
      simp [streamEndCleanup, unlink, hin, hout2]
    rw [hres]
    constructor
    · exact fun hmem => hnd.not_mem_erase (List.mem_of_mem_erase hmem)
    · exact (hnd.erase inp).not_mem_erase
  · intro hnin
    simp [streamEndCleanup, unlink, hnin]

/-- Witness for the amended claim C7: with both files present both are
removed; with the input missing the filesystem is returned unchanged. -/
theorem streamEndCleanup_logs_but_aborts_witness :
    "uploads/a" ∉ streamEndCleanup "uploads/a" "uploads/b" ["uploads/a", "uploads/b"] ∧
    "uploads/b" ∉ streamEndCleanup "uploads/a" "uploads/b" ["uploads/a", "uploads/b"] ∧
    streamEndCleanup "uploads/a" "uploads/b" ["uploads/b"] = ["uploads/b"] := by
  have h1 := streamEndCleanup_logs_but_aborts "uploads/a" "uploads/b"
    ["uploads/a", "uploads/b"] (by decide) (by decide)
  have h2 := streamEndCleanup_logs_but_aborts "uploads/a" "uploads/b"
    ["uploads/b"] (by decide) (by decide)
  exact ⟨(h1.1 (by decide) (by decide)).1, (h1.1 (by decide) (by decide)).2, h2.2 (by decide)⟩
